import Mathlib

/-
Verification of the process-supervision core of the Telegram bot hoster
(src/main.py, class ProjectManager).  The Python dictionaries
`self.processes` (Process Table) and `self.project_configs` (Project Store)
are embedded as association lists; the on-disk `projects.json` copy is the
`disk` field; the operating-system view of spawned children (pid to
aliveness, what `Popen.poll` consults) is the `osProcs` field; per-project
log files are the `logs` field (absent key means the file does not exist).
A `writeOk` flag models whether the `save_projects` disk write raises; the
Python code catches and only logs such an exception.
-/

namespace Hoster

/-- First value stored under a key in an association list (Python dict lookup). -/
def lookupKey {κ α : Type} [DecidableEq κ] (k : κ) : List (κ × α) → Option α
  | [] => none
  | (j, v) :: rest => if k = j then some v else lookupKey k rest

/-- Remove every pair with the given key (Python `del d[k]`). -/
def eraseKey {κ α : Type} [DecidableEq κ] (k : κ) : List (κ × α) → List (κ × α)
  | [] => []
  | (j, v) :: rest => if k = j then eraseKey k rest else (j, v) :: eraseKey k rest

/-- Set the value under a key (Python `d[k] = v`). -/
def insertKV {κ α : Type} [DecidableEq κ] (k : κ) (v : α) (l : List (κ × α)) :
    List (κ × α) :=
  (k, v) :: eraseKey k l

/-- Number of pairs with the given key. -/
def countKey {κ α : Type} [DecidableEq κ] (k : κ) : List (κ × α) → Nat
  | [] => 0
  | (j, _) :: rest => (if k = j then 1 else 0) + countKey k rest

/-- Number of live OS child processes. -/
def aliveCount : List (Nat × Bool) → Nat
  | [] => 0
  | (_, b) :: rest => (if b then 1 else 0) + aliveCount rest

/-- A Process Table entry: the `subprocess.Popen` handle of src/main.py.
`alive` is what `poll() is None` reports for this particular child. -/
structure Proc where
  pid : Nat
  alive : Bool
deriving DecidableEq

/-- One record of `self.project_configs` (src/main.py, create_project):
fields name, path, run_command, created_at, status, and the optional pid. -/
structure Config where
  name : String
  path : String
  run_command : String
  created_at : String
  status : String
  pid : Option Nat
deriving DecidableEq

/-- The state a ProjectManager instance acts on, together with the parts of
the outside world the claims observe (OS process table, log files, disk). -/
structure MState where
  processes : List (String × Proc)
  configs : List (String × Config)
  disk : List (String × Config)
  osProcs : List (Nat × Bool)
  logs : List (String × List String)
  writeOk : Bool
deriving DecidableEq

/-- Grace period of `process.wait(timeout=10)` in stop_project (src/main.py line 158). -/
def gracePeriod : Nat := 10

/-- The `time.sleep(2)` pause in restart_project (src/main.py line 179). -/
def restartPause : Nat := 2

/-- save_projects (src/main.py lines 69-76): writes `project_configs` to
projects.json; an exception is caught and only logged, so on a failing
write the state is simply unchanged and no error reaches the caller. -/
def save_projects (st : MState) : MState :=
  if st.writeOk then { st with disk := st.configs } else st

/-- The check `name in self.processes and self.processes[name].poll() is None`
used by start_project (src/main.py line 114). -/
def pollAlive (st : MState) (name : String) : Bool :=
  match lookupKey name st.processes with
  | some pr => pr.alive
  | none => false

/-- create_project (src/main.py lines 78-95): makes the project directory and
unconditionally installs a fresh metadata record, then saves.  There is no
existence check in this method. -/
def create_project (st : MState) (name : String) (now : String) : MState × Bool :=
  let c : Config :=
    { name := name, path := "projects/" ++ name, run_command := "python3 main.py",
      created_at := now, status := "stopped", pid := none }
  (save_projects { st with configs := insertKV name c st.configs }, true)

/-- start_project (src/main.py lines 109-145).  `newPid` is the pid the OS
gives the spawned child; opening the log file with mode w truncates it. -/
def start_project (st : MState) (name : String) (newPid : Nat) : MState × Bool × String :=
  match lookupKey name st.configs with
  | none => (st, false, "Project not found")
  | some c =>
    if pollAlive st name then
      (st, false, "Project is already running")
    else
      let cfgs := insertKV name { c with status := "running", pid := some newPid } st.configs
      let st2 := save_projects
        { st with
          processes := insertKV name { pid := newPid, alive := true } st.processes,
          osProcs := insertKV newPid true st.osProcs,
          logs := insertKV name ([] : List String) st.logs,
          configs := cfgs }
      (st2, true, "Project started with PID " ++ toString newPid)

/-- stop_project (src/main.py lines 147-173).  If the child is still alive it
is terminated (then killed after the grace period), so it is dead afterwards;
the table entry is deleted, then `project_configs[name]` is updated — a
KeyError there is caught by the `except` clause after the entry was already
deleted. -/
def stop_project (st : MState) (name : String) : MState × Bool × String :=
  match lookupKey name st.processes with
  | none => (st, false, "Project is not running")
  | some pr =>
    let os2 := if pr.alive then insertKV pr.pid false st.osProcs else st.osProcs
    let st1 := { st with processes := eraseKey name st.processes, osProcs := os2 }
    match lookupKey name st1.configs with
    | none => (st1, false, "Error: KeyError " ++ name)
    | some c =>
      let cfgs := insertKV name { c with status := "stopped", pid := none } st1.configs
      (save_projects { st1 with configs := cfgs }, true, "Project stopped successfully")

/-- restart_project (src/main.py lines 175-181): stop, then if the stop
succeeded or no table entry remains, sleep 2 seconds and start. -/
def restart_project (st : MState) (name : String) (newPid : Nat) : MState × Bool × String :=
  let r := stop_project st name
  if r.2.1 || (lookupKey name r.1.processes).isNone then
    start_project r.1 name newPid
  else
    (r.1, false, "Failed to stop project for restart")

/-- get_project_status (src/main.py lines 183-198).  On a dead table entry it
deletes the entry, sets status to stopped (the pid field is left as it was)
and saves. -/
def get_project_status (st : MState) (name : String) : MState × String :=
  match lookupKey name st.configs with
  | none => (st, "❌ Not found")
  | some c =>
    match lookupKey name st.processes with
    | some pr =>
      if pr.alive then
        (st, "🟢 Running (PID: " ++ toString pr.pid ++ ")")
      else
        let cfgs := insertKV name { c with status := "stopped" } st.configs
        (save_projects { st with processes := eraseKey name st.processes, configs := cfgs },
          "🔴 Stopped")
    | none => (st, "🔴 Stopped")

/-- Python list slice `l[-n:]` as used on the readlines result
(src/main.py line 209): for n = 0 this is the whole list. -/
def pySliceLast {α : Type} (l : List α) (n : Nat) : List α :=
  if n = 0 then l else l.drop (l.length - n)

/-- Python `''.join(l)`. -/
def pyJoin : List String → String
  | [] => ""
  | s :: rest => s ++ pyJoin rest

/-- get_project_logs (src/main.py lines 200-212): absent file gives the
no-logs result; an empty join gives the empty-logs result. -/
def get_project_logs (st : MState) (name : String) (n : Nat) : String :=
  match lookupKey name st.logs with
  | none => "No logs found"
  | some ls =>
    let t := pyJoin (pySliceLast ls n)
    if t = "" then "Logs are empty" else t

/-- update_run_command (src/main.py lines 276-283). -/
def update_run_command (st : MState) (name : String) (cmd : String) : MState × Bool :=
  match lookupKey name st.configs with
  | none => (st, false)
  | some c =>
    (save_projects { st with configs := insertKV name { c with run_command := cmd } st.configs },
      true)

/-- The directory removals and metadata removal of delete_project
(src/main.py lines 296-309): remove the log directory, then if the name is
still in the store remove it and save. -/
def deleteDirs (st : MState) (name : String) : MState × Bool × String :=
  let st1 := { st with logs := eraseKey name st.logs }
  match lookupKey name st1.configs with
  | some _ =>
    (save_projects { st1 with configs := eraseKey name st1.configs }, true,
      "Project " ++ name ++ " deleted successfully.")
  | none => (st1, true, "Project " ++ name ++ " deleted successfully.")

/-- delete_project (src/main.py lines 285-312): stop first when a table entry
exists, aborting on a failed stop, then remove directories and metadata. -/
def delete_project (st : MState) (name : String) : MState × Bool × String :=
  match lookupKey name st.configs with
  | none => (st, false, "Project not found")
  | some _ =>
    match lookupKey name st.processes with
    | some _ =>
      let r := stop_project st name
      if r.2.1 then deleteDirs r.1 name
      else (r.1, false, "Unable to stop project before deletion")
    | none => deleteDirs st name

/-- A child process appending a line of output to its log file
(the redirected stdout of src/main.py lines 131-132). -/
def childWrite (st : MState) (name : String) (line : String) : MState :=
  match lookupKey name st.logs with
  | some l => { st with logs := insertKV name (l ++ [line]) st.logs }
  | none => st

/-- The characters kept by `name.replace(chr(95),...).replace(chr(45),...)`
in handle_text_input (src/main.py line 407). -/
def stripSeps (s : String) : List Char :=
  s.toList.filter (fun ch => !(ch == '_' || ch == '-'))

/-- Python `str.isalnum`: nonempty and every character alphanumeric. -/
def isalnumStr (cs : List Char) : Bool :=
  !cs.isEmpty && cs.all Char.isAlphanum

/-- The project-name validation of handle_text_input (src/main.py line 407). -/
def validName (s : String) : Bool :=
  !(s == "") && isalnumStr (stripSeps s)

/-- The new-project flow of handle_text_input (src/main.py lines 403-430):
validate the name, refuse names already in the store, otherwise create. -/
def handleNewProject (st : MState) (name : String) (now : String) : MState × String :=
  if !(validName name) then
    (st, "Invalid project name")
  else if (lookupKey name st.configs).isSome then
    (st, "Project " ++ name ++ " already exists!")
  else
    let r := create_project st name now
    if r.2 then (r.1, "Project " ++ name ++ " created successfully!")
    else (r.1, "Failed to create project")

/-- Stored status says running (src/main.py status field). -/
def statusRunning (st : MState) (name : String) : Bool :=
  match lookupKey name st.configs with
  | some c => c.status == "running"
  | none => false

/-- A live Process Table entry exists for the name. -/
def liveEntry (st : MState) (name : String) : Bool :=
  match lookupKey name st.processes with
  | some pr => pr.alive
  | none => false

/-- The per-name table invariant of spec section 8: at most one table entry,
and stored status running exactly when a live entry exists. -/
def TableInv (st : MState) (name : String) : Prop :=
  countKey name st.processes ≤ 1 ∧ (statusRunning st name = true ↔ liveEntry st name = true)

/-- Supervisory operations of the claim about lifecycle sequences. -/
inductive SupOp : Type where
  | start : String → Nat → SupOp
  | stop : String → SupOp
  | restart : String → Nat → SupOp
deriving DecidableEq

/-- State after one supervisory operation. -/
def applyOp (st : MState) : SupOp → MState
  | SupOp.start n p => (start_project st n p).1
  | SupOp.stop n => (stop_project st n).1
  | SupOp.restart n p => (restart_project st n p).1

/-- State after a sequence of supervisory operations. -/
def runOps (st : MState) : List SupOp → MState
  | [] => st
  | op :: rest => runOps (applyOp st op) rest

/-- The last k lines of a log, as the spec words it (for comparison with
what the code computes). -/
def lastLines (l : List String) (k : Nat) : List String :=
  l.drop (l.length - k)

/-- Example state for the claim about stopping a live process. -/
def cfgA : Config :=
  { name := "a", path := "projects/a", run_command := "python3 main.py",
    created_at := "t0", status := "running", pid := some 5 }

/-- State with one live child for project a. -/
def exLive : MState :=
  { processes := [("a", { pid := 5, alive := true })],
    configs := [("a", cfgA)], disk := [("a", cfgA)],
    osProcs := [(5, true)], logs := [("a", ["x\n"])], writeOk := true }

/-- State with a dead table entry for project a. -/
def exDead : MState :=
  { processes := [("a", { pid := 5, alive := false })],
    configs := [("a", cfgA)], disk := [("a", cfgA)],
    osProcs := [(5, false)], logs := [("a", ["x\n"])], writeOk := true }

/-- State where project a exists in the store and nothing runs. -/
def exStopped : MState :=
  { processes := [],
    configs := [("a", { cfgA with status := "stopped", pid := none })],
    disk := [("a", { cfgA with status := "stopped", pid := none })],
    osProcs := [], logs := [("a", ["old\n"])], writeOk := true }

/-- State whose disk writes fail. -/
def exNoDisk : MState :=
  { processes := [], configs := [], disk := [], osProcs := [], logs := [],
    writeOk := false }

/-- State with a table entry but no Project Store record for the name. -/
def exOrphan : MState :=
  { processes := [("a", { pid := 5, alive := true })], configs := [], disk := [],
    osProcs := [(5, true)], logs := [], writeOk := true }

/-- Empty manager state. -/
def exEmpty : MState :=
  { processes := [], configs := [], disk := [], osProcs := [], logs := [],
    writeOk := true }

/-- Metadata with a user-edited run command. -/
def cfgCustom : Config :=
  { name := "a", path := "projects/a", run_command := "node bot.js",
    created_at := "t0", status := "running", pid := some 5 }

/-- State where project a exists with customised metadata. -/
def exCustom : MState :=
  { processes := [], configs := [("a", cfgCustom)], disk := [("a", cfgCustom)],
    osProcs := [], logs := [], writeOk := true }

section Lemmas

variable {κ α : Type} [DecidableEq κ]

theorem lookupKey_insert_self (k : κ) (v : α) (l : List (κ × α)) :
    lookupKey k (insertKV k v l) = some v := by
  simp [insertKV, lookupKey]

theorem lookupKey_erase_self (k : κ) (l : List (κ × α)) :
    lookupKey k (eraseKey k l) = none := by
  induction l with
  | nil => rfl
  | cons p rest ih =>
    obtain ⟨j, v⟩ := p
    by_cases h : k = j
    · subst h
      simp [eraseKey, ih]
    · simp [eraseKey, lookupKey, h, ih]

theorem lookupKey_erase_ne (k j : κ) (l : List (κ × α)) (h : k ≠ j) :
    lookupKey k (eraseKey j l) = lookupKey k l := by
  induction l with
  | nil => rfl
  | cons p rest ih =>
    obtain ⟨i, v⟩ := p
    by_cases hj : j = i
    · subst hj
      simp [eraseKey, lookupKey, h, ih]
    · by_cases hk : k = i <;> simp [eraseKey, lookupKey, hj, hk, ih]

theorem lookupKey_insert_ne (k j : κ) (v : α) (l : List (κ × α)) (h : k ≠ j) :
    lookupKey k (insertKV j v l) = lookupKey k l := by
  simp [insertKV, lookupKey, h, lookupKey_erase_ne k j l h]

theorem countKey_erase_self (k : κ) (l : List (κ × α)) :
    countKey k (eraseKey k l) = 0 := by
  induction l with
  | nil => rfl
  | cons p rest ih =>
    obtain ⟨j, v⟩ := p
    by_cases h : k = j
    · subst h
      simp [eraseKey, ih]
    · simp [eraseKey, countKey, h, ih]

theorem countKey_insert_self (k : κ) (v : α) (l : List (κ × α)) :
    countKey k (insertKV k v l) = 1 := by
  simp [insertKV, countKey, countKey_erase_self]

theorem countKey_erase_ne (k j : κ) (l : List (κ × α)) (h : k ≠ j) :
    countKey k (eraseKey j l) = countKey k l := by
  induction l with
  | nil => rfl
  | cons p rest ih =>
    obtain ⟨i, v⟩ := p
    by_cases hj : j = i
    · subst hj
      simp [eraseKey, countKey, h, ih]
    · simp [eraseKey, countKey, hj, ih]

theorem countKey_insert_ne (k j : κ) (v : α) (l : List (κ × α)) (h : k ≠ j) :
    countKey k (insertKV j v l) = countKey k l := by
  simp [insertKV, countKey, h, countKey_erase_ne k j l h]

theorem eraseKey_of_lookup_none (k : κ) (l : List (κ × α))
    (h : lookupKey k l = none) : eraseKey k l = l := by
  induction l with
  | nil => rfl
  | cons p rest ih =>
    obtain ⟨j, v⟩ := p
    by_cases hk : k = j
    · simp [lookupKey, hk] at h
    · simp [lookupKey, hk] at h
      simp [eraseKey, hk, ih h]

theorem aliveCount_insert_fresh (p : Nat) (l : List (Nat × Bool))
    (h : lookupKey p l = none) :
    aliveCount (insertKV p true l) = aliveCount l + 1 := by
  simp [insertKV, aliveCount, eraseKey_of_lookup_none p l h]
  omega

theorem save_processes (st : MState) : (save_projects st).processes = st.processes := by
  unfold save_projects; split <;> rfl

theorem save_configs (st : MState) : (save_projects st).configs = st.configs := by
  unfold save_projects; split <;> rfl

theorem save_osProcs (st : MState) : (save_projects st).osProcs = st.osProcs := by
  unfold save_projects; split <;> rfl

theorem save_logs (st : MState) : (save_projects st).logs = st.logs := by
  unfold save_projects; split <;> rfl

theorem save_writeOk (st : MState) : (save_projects st).writeOk = st.writeOk := by
  unfold save_projects; split <;> rfl

theorem save_disk_of_writeOk (st : MState) (h : st.writeOk = true) :
    (save_projects st).disk = st.configs := by
  simp [save_projects, h]

theorem save_disk_of_writeFail (st : MState) (h : st.writeOk = false) :
    (save_projects st).disk = st.disk := by
  simp [save_projects, h]

end Lemmas

theorem start_blocked_of_live (st : MState) (name : String) (c : Config) (pr : Proc)
    (p : Nat) (hc : lookupKey name st.configs = some c)
    (hp : lookupKey name st.processes = some pr) (ha : pr.alive = true) :
    start_project st name p = (st, false, "Project is already running") := by
  simp [start_project, hc, pollAlive, hp, ha]

theorem start_spawns (st : MState) (name : String) (c : Config) (p : Nat)
    (hc : lookupKey name st.configs = some c) (hl : pollAlive st name = false) :
    start_project st name p =
      (save_projects { st with
          processes := insertKV name { pid := p, alive := true } st.processes,
          osProcs := insertKV p true st.osProcs,
          logs := insertKV name ([] : List String) st.logs,
          configs := insertKV name { c with status := "running", pid := some p } st.configs },
        true, "Project started with PID " ++ toString p) := by
  simp [start_project, hc, hl]

theorem stop_none (st : MState) (n : String) (hp : lookupKey n st.processes = none) :
    stop_project st n = (st, false, "Project is not running") := by
  simp [stop_project, hp]

theorem stop_keyError (st : MState) (n : String) (pr : Proc)
    (hp : lookupKey n st.processes = some pr) (hc : lookupKey n st.configs = none) :
    stop_project st n =
      ({ st with
          processes := eraseKey n st.processes,
          osProcs := if pr.alive then insertKV pr.pid false st.osProcs else st.osProcs },
        false, "Error: KeyError " ++ n) := by
  simp [stop_project, hp, hc]

theorem stop_found (st : MState) (n : String) (pr : Proc) (c : Config)
    (hp : lookupKey n st.processes = some pr) (hc : lookupKey n st.configs = some c) :
    stop_project st n =
      (save_projects { st with
          processes := eraseKey n st.processes,
          osProcs := if pr.alive then insertKV pr.pid false st.osProcs else st.osProcs,
          configs := insertKV n { c with status := "stopped", pid := none } st.configs },
        true, "Project stopped successfully") := by
  simp [stop_project, hp, hc]

theorem stop_clears_entry (st : MState) (n : String) :
    lookupKey n (stop_project st n).1.processes = none := by
  cases hp : lookupKey n st.processes with
  | none => simpa [stop_none st n hp] using hp
  | some pr =>
    cases hc : lookupKey n st.configs with
    | none =>
      rw [stop_keyError st n pr hp hc]
      exact lookupKey_erase_self n _
    | some c =>
      rw [stop_found st n pr c hp hc]
      show lookupKey n (save_projects _).processes = none
      rw [save_processes]
      exact lookupKey_erase_self n _

theorem restart_eq_stop_start (st : MState) (n : String) (p : Nat) :
    restart_project st n p = start_project (stop_project st n).1 n p := by
  simp [restart_project, stop_clears_entry st n]

theorem start_preserves_TableInv (st : MState) (n : String) (p : Nat) (name : String)
    (h : TableInv st name) : TableInv (start_project st n p).1 name := by
  cases hc : lookupKey n st.configs with
  | none => simpa [start_project, hc] using h
  | some c =>
    by_cases hl : pollAlive st n = true
    · simpa [start_project, hc, hl] using h
    · rw [start_spawns st n c p hc (by simpa using hl)]
      by_cases he : name = n
      · subst he
        constructor
        · show countKey name (save_projects _).processes ≤ 1
          rw [save_processes]
          simp [countKey_insert_self]
        · constructor
          · intro _
            show liveEntry (save_projects _) name = true
            unfold liveEntry
            rw [save_processes, lookupKey_insert_self]
          · intro _
            show statusRunning (save_projects _) name = true
            unfold statusRunning
            rw [save_configs, lookupKey_insert_self]
            rfl
      · have h1 : countKey name (save_projects { st with
            processes := insertKV n { pid := p, alive := true } st.processes,
            osProcs := insertKV p true st.osProcs,
            logs := insertKV n ([] : List String) st.logs,
            configs := insertKV n { c with status := "running", pid := some p }
              st.configs }).processes = countKey name st.processes := by
          rw [save_processes]
          exact countKey_insert_ne name n _ _ he
        have h2 : statusRunning (save_projects { st with
            processes := insertKV n { pid := p, alive := true } st.processes,
            osProcs := insertKV p true st.osProcs,
            logs := insertKV n ([] : List String) st.logs,
            configs := insertKV n { c with status := "running", pid := some p }
              st.configs }) name = statusRunning st name := by
          unfold statusRunning
          rw [save_configs]
          rw [show lookupKey name (insertKV n { c with status := "running", pid := some p }
            st.configs) = lookupKey name st.configs from
            lookupKey_insert_ne name n _ _ he]
        have h3 : liveEntry (save_projects { st with
            processes := insertKV n { pid := p, alive := true } st.processes,
            osProcs := insertKV p true st.osProcs,
            logs := insertKV n ([] : List String) st.logs,
            configs := insertKV n { c with status := "running", pid := some p }
              st.configs }) name = liveEntry st name := by
          unfold liveEntry
          rw [save_processes]
          rw [show lookupKey name (insertKV n { pid := p, alive := true } st.processes)
            = lookupKey name st.processes from lookupKey_insert_ne name n _ _ he]
        exact ⟨by rw [h1]; exact h.1, by rw [h2, h3]; exact h.2⟩

theorem stop_preserves_TableInv (st : MState) (n : String) (name : String)
    (h : TableInv st name) : TableInv (stop_project st n).1 name := by
  cases hp : lookupKey n st.processes with
  | none => simpa [stop_none st n hp] using h
  | some pr =>
    cases hc : lookupKey n st.configs with
    | none =>
      rw [stop_keyError st n pr hp hc]
      by_cases he : name = n
      · subst he
        constructor
        · simp [countKey_erase_self]
        · constructor
          · intro hs
            exfalso
            revert hs
            unfold statusRunning
            simp [hc]
          · intro hl
            exfalso
            revert hl
            unfold liveEntry
            simp [lookupKey_erase_self]
      · constructor
        · show countKey name (eraseKey n st.processes) ≤ 1
          rw [countKey_erase_ne name n _ he]
          exact h.1
        · have h2 : statusRunning { st with
              processes := eraseKey n st.processes,
              osProcs := if pr.alive then insertKV pr.pid false st.osProcs
                else st.osProcs } name = statusRunning st name := by
            unfold statusRunning
            rfl
          have h3 : liveEntry { st with
              processes := eraseKey n st.processes,
              osProcs := if pr.alive then insertKV pr.pid false st.osProcs
                else st.osProcs } name = liveEntry st name := by
            unfold liveEntry
            show (match lookupKey name (eraseKey n st.processes) with
              | some pr => pr.alive | none => false) = _
            rw [lookupKey_erase_ne name n _ he]
          rw [h2, h3]
          exact h.2
    | some c =>
      rw [stop_found st n pr c hp hc]
      by_cases he : name = n
      · subst he
        constructor
        · show countKey name (save_projects _).processes ≤ 1
          rw [save_processes]
          simp [countKey_erase_self]
        · constructor
          · intro hs
            exfalso
            revert hs
            unfold statusRunning
            rw [save_configs, lookupKey_insert_self]
            simp
          · intro hl
            exfalso
            revert hl
            unfold liveEntry
            rw [save_processes]
            simp [lookupKey_erase_self]
      · have h1 : countKey name (save_projects { st with
            processes := eraseKey n st.processes,
            osProcs := if pr.alive then insertKV pr.pid false st.osProcs else st.osProcs,
            configs := insertKV n { c with status := "stopped", pid := none }
              st.configs }).processes = countKey name st.processes := by
          rw [save_processes]
          exact countKey_erase_ne name n _ he
        have h2 : statusRunning (save_projects { st with
            processes := eraseKey n st.processes,
            osProcs := if pr.alive then insertKV pr.pid false st.osProcs else st.osProcs,
            configs := insertKV n { c with status := "stopped", pid := none }
              st.configs }) name = statusRunning st name := by
          unfold statusRunning
          rw [save_configs]
          rw [show lookupKey name (insertKV n { c with status := "stopped", pid := none }
            st.configs) = lookupKey name st.configs from
            lookupKey_insert_ne name n _ _ he]
        have h3 : liveEntry (save_projects { st with
            processes := eraseKey n st.processes,
            osProcs := if pr.alive then insertKV pr.pid false st.osProcs else st.osProcs,
            configs := insertKV n { c with status := "stopped", pid := none }
              st.configs }) name = liveEntry st name := by
          unfold liveEntry
          rw [save_processes]
          rw [show lookupKey name (eraseKey n st.processes)
            = lookupKey name st.processes from lookupKey_erase_ne name n _ he]
        exact ⟨by rw [h1]; exact h.1, by rw [h2, h3]; exact h.2⟩

theorem restart_preserves_TableInv (st : MState) (n : String) (p : Nat) (name : String)
    (h : TableInv st name) : TableInv (restart_project st n p).1 name := by
  rw [restart_eq_stop_start]
  exact start_preserves_TableInv _ n p name (stop_preserves_TableInv st n name h)

/-- Claim C1: for a project name with a live Process Table entry (its store
record present and the disk write succeeding), a successful stop returns
only after the child has exited: stop_project reports success, the former
pid probes dead in the OS table, the Process Table entry is removed, the
stored status is stopped with the pid field removed, and the store is
persisted; the grace period before the forced kill is the fixed 10 units. -/
theorem c1_stop_live_terminal (st : MState) (name : String) (pr : Proc) (c : Config)
    (hp : lookupKey name st.processes = some pr) (ha : pr.alive = true)
    (hc : lookupKey name st.configs = some c) (hw : st.writeOk = true) :
    (stop_project st name).2.1 = true ∧
    (stop_project st name).2.2 = "Project stopped successfully" ∧
    lookupKey pr.pid (stop_project st name).1.osProcs = some false ∧
    lookupKey name (stop_project st name).1.processes = none ∧
    lookupKey name (stop_project st name).1.configs
      = some { c with status := "stopped", pid := none } ∧
    (stop_project st name).1.disk = (stop_project st name).1.configs ∧
    gracePeriod = 10 := by
  simp only [stop_project, hp, ha, if_true]
  simp [hc, save_projects, hw, lookupKey_insert_self, lookupKey_erase_self, gracePeriod]

/-- Claim C1 witness: stopping the live example project. -/
theorem c1_stop_live_terminal_witness :
    (stop_project exLive "a").2.1 = true ∧
    (stop_project exLive "a").2.2 = "Project stopped successfully" ∧
    lookupKey (5 : Nat) (stop_project exLive "a").1.osProcs = some false ∧
    lookupKey "a" (stop_project exLive "a").1.processes = none ∧
    lookupKey "a" (stop_project exLive "a").1.configs
      = some { cfgA with status := "stopped", pid := none } ∧
    (stop_project exLive "a").1.disk = (stop_project exLive "a").1.configs ∧
    gracePeriod = 10 :=
  c1_stop_live_terminal exLive "a" { pid := 5, alive := true } cfgA (by decide)
    (by decide) (by decide) (by decide)

/-- Claim C2: starting a project whose Process Table entry probes live fails
with the already-running error and leaves the state untouched, whatever the
stored status field says; hence two starts in a row (from a state with no
table entry and a fresh pid) succeed once, give the already-running error on
the second call, and leave exactly one new live child. -/
theorem c2_start_already_running (st : MState) (name : String) (c : Config)
    (p1 p2 : Nat) (hc : lookupKey name st.configs = some c) :
    (∀ pr : Proc, lookupKey name st.processes = some pr → pr.alive = true →
      start_project st name p2 = (st, false, "Project is already running")) ∧
    (lookupKey name st.processes = none → lookupKey p1 st.osProcs = none →
      (start_project st name p1).2.1 = true ∧
      start_project (start_project st name p1).1 name p2
        = ((start_project st name p1).1, false, "Project is already running") ∧
      aliveCount (start_project st name p1).1.osProcs = aliveCount st.osProcs + 1) := by
  constructor
  · intro pr hp ha
    exact start_blocked_of_live st name c pr p2 hc hp ha
  · intro hnone hfresh
    have hl : pollAlive st name = false := by simp [pollAlive, hnone]
    rw [start_spawns st name c p1 hc hl]
    refine ⟨rfl, ?_, ?_⟩
    · refine start_blocked_of_live _ name
        { c with status := "running", pid := some p1 } { pid := p1, alive := true } p2 ?_ ?_ rfl
      · rw [save_configs]
        exact lookupKey_insert_self name _ _
      · rw [save_processes]
        exact lookupKey_insert_self name _ _
    · rw [save_osProcs]
      exact aliveCount_insert_fresh p1 st.osProcs hfresh

/-- Claim C2 witness: a start on the live example project is refused, and two
starts in a row on the stopped example project spawn exactly one child. -/
theorem c2_start_already_running_witness :
    start_project exLive "a" 8 = (exLive, false, "Project is already running") ∧
    ((start_project exStopped "a" 7).2.1 = true ∧
      start_project (start_project exStopped "a" 7).1 "a" 8
        = ((start_project exStopped "a" 7).1, false, "Project is already running") ∧
      aliveCount (start_project exStopped "a" 7).1.osProcs
        = aliveCount exStopped.osProcs + 1) :=
  ⟨(c2_start_already_running exLive "a" cfgA 7 8 (by decide)).1
      { pid := 5, alive := true } (by decide) (by decide),
    (c2_start_already_running exStopped "a" { cfgA with status := "stopped", pid := none } 7 8
      (by decide)).2 (by decide) (by decide)⟩

/-- Claim C3: for any project name, after any sequence of start, stop and
restart calls the Process Table holds at most one entry for that name, and
the stored status is running exactly when a live table entry exists —
provided the starting state already satisfied this (the empty state does). -/
theorem c3_table_invariant (st : MState) (ops : List SupOp) (name : String)
    (h : TableInv st name) : TableInv (runOps st ops) name := by
  induction ops generalizing st with
  | nil => exact h
  | cons op rest ih =>
    show TableInv (runOps (applyOp st op) rest) name
    apply ih
    cases op with
    | start n p => exact start_preserves_TableInv st n p name h
    | stop n => exact stop_preserves_TableInv st n name h
    | restart n p => exact restart_preserves_TableInv st n p name h

/-- Claim C3 witness: a start, restart, stop sequence from the empty state. -/
theorem c3_table_invariant_witness :
    TableInv (runOps exEmpty
      [SupOp.start "a" 1, SupOp.restart "a" 2, SupOp.stop "a"]) "a" :=
  c3_table_invariant exEmpty
    [SupOp.start "a" 1, SupOp.restart "a" 2, SupOp.stop "a"] "a" (by constructor <;> decide)

/-- Claim C10: a Process Table entry whose process already exited still lets
stop succeed — the terminate and kill phase is skipped (OS process table
untouched), the entry is removed, the stored status becomes stopped with
the pid field removed, and the store is persisted when the write succeeds;
and stop returns the not-running failure with the state unchanged exactly
when no Process Table entry exists. -/
theorem c10_stop_dead_entry_and_not_running (st : MState) (name : String) :
    (∀ pr c, lookupKey name st.processes = some pr → pr.alive = false →
      lookupKey name st.configs = some c →
      (stop_project st name).2.1 = true ∧
      (stop_project st name).1.osProcs = st.osProcs ∧
      lookupKey name (stop_project st name).1.processes = none ∧
      lookupKey name (stop_project st name).1.configs
        = some { c with status := "stopped", pid := none } ∧
      (st.writeOk = true →
        (stop_project st name).1.disk = (stop_project st name).1.configs)) ∧
    (stop_project st name = (st, false, "Project is not running") ↔
      lookupKey name st.processes = none) := by
  constructor
  · intro pr c hp hd hc
    rw [stop_found st name pr c hp hc]
    have hos : (if pr.alive then insertKV pr.pid false st.osProcs else st.osProcs)
        = st.osProcs := by
      rw [hd]
      rfl
    refine ⟨rfl, ?_, ?_, ?_, ?_⟩
    · show (save_projects _).osProcs = st.osProcs
      rw [save_osProcs]
      exact hos
    · show lookupKey name (save_projects _).processes = none
      rw [save_processes]
      exact lookupKey_erase_self name _
    · show lookupKey name (save_projects _).configs = _
      rw [save_configs]
      exact lookupKey_insert_self name _ _
    · intro hw
      show (save_projects _).disk = (save_projects _).configs
      rw [save_configs, save_disk_of_writeOk]
      exact hw
  · constructor
    · intro heq
      cases hp : lookupKey name st.processes with
      | none => rfl
      | some pr =>
        exfalso
        cases hc : lookupKey name st.configs with
        | none =>
          rw [stop_keyError st name pr hp hc] at heq
          have hstates := congrArg (fun r => lookupKey name (Prod.fst r).processes) heq
          simp only at hstates
          rw [lookupKey_erase_self] at hstates
          rw [← hstates] at hp
          exact Option.noConfusion hp
        | some c =>
          rw [stop_found st name pr c hp hc] at heq
          have hflag := congrArg (fun r => r.2.1) heq
          simp only at hflag
          exact Bool.noConfusion hflag
    · intro hp
      exact stop_none st name hp

theorem status_dead (st : MState) (name : String) (pr : Proc) (c : Config)
    (hc : lookupKey name st.configs = some c)
    (hp : lookupKey name st.processes = some pr) (hd : pr.alive = false) :
    get_project_status st name =
      (save_projects { st with
          processes := eraseKey name st.processes,
          configs := insertKV name { c with status := "stopped" } st.configs },
        "🔴 Stopped") := by
  simp [get_project_status, hc, hp, hd]

theorem string_eq_empty_of_length (s : String) (h : s.length = 0) : s = "" := by
  cases s with
  | mk data =>
    cases data with
    | nil => rfl
    | cons c cs => simp [String.length] at h

theorem append_ne_empty_left (a b : String) (ha : a ≠ "") : a ++ b ≠ "" := by
  intro h
  apply ha
  have hl := congrArg String.length h
  rw [String.length_append] at hl
  have hz : ("" : String).length = 0 := rfl
  rw [hz] at hl
  exact string_eq_empty_of_length a (by omega)

theorem pyJoin_ne_empty (l : List String) (hne : ∀ s ∈ l, s ≠ "") (h0 : l ≠ []) :
    pyJoin l ≠ "" := by
  cases l with
  | nil => exact absurd rfl h0
  | cons a t =>
    show a ++ pyJoin t ≠ ""
    exact append_ne_empty_left a (pyJoin t) (hne a (List.mem_cons_self a t))

/-- Claim C10 witness: stopping the dead-entry example and stopping a project
with no entry. -/
theorem c10_stop_dead_entry_witness :
    ((stop_project exDead "a").2.1 = true ∧
      (stop_project exDead "a").1.osProcs = exDead.osProcs ∧
      lookupKey "a" (stop_project exDead "a").1.processes = none ∧
      lookupKey "a" (stop_project exDead "a").1.configs
        = some { cfgA with status := "stopped", pid := none } ∧
      (stop_project exDead "a").1.disk = (stop_project exDead "a").1.configs) ∧
    stop_project exStopped "a" = (exStopped, false, "Project is not running") := by
  constructor
  · have h := (c10_stop_dead_entry_and_not_running exDead "a").1
      { pid := 5, alive := false } cfgA (by decide) (by decide) (by decide)
    exact ⟨h.1, h.2.1, h.2.2.1, h.2.2.2.1, h.2.2.2.2 (by decide)⟩
  · exact (c10_stop_dead_entry_and_not_running exStopped "a").2.mpr (by decide)

/-- Claim C4 counterexample: on the dead-entry example the status query does
evict the entry and report stopped, but the stored pid field is NOT cleared
— it still holds 5 afterwards — refuting the claim that the metadata is
reconciled with the pid field cleared. -/
theorem c4_status_keeps_pid_counterexample :
    pollAlive exDead "a" = false ∧
    (get_project_status exDead "a").2 = "🔴 Stopped" ∧
    (lookupKey "a" (get_project_status exDead "a").1.configs).map Config.pid
      = some (some 5) := by decide

/-- Claim C4 amended: whenever a status query finds a Process Table entry
whose process is dead, it evicts the entry, reconciles the stored metadata
to status stopped while leaving the pid field as it was, persists the
Project Store (when the disk write succeeds), and reports the project as
stopped. -/
theorem c4_status_dead_reconciles (st : MState) (name : String) (pr : Proc) (c : Config)
    (hc : lookupKey name st.configs = some c)
    (hp : lookupKey name st.processes = some pr) (hd : pr.alive = false)
    (hw : st.writeOk = true) :
    (get_project_status st name).2 = "🔴 Stopped" ∧
    lookupKey name (get_project_status st name).1.processes = none ∧
    lookupKey name (get_project_status st name).1.configs
      = some { c with status := "stopped" } ∧
    (get_project_status st name).1.disk = (get_project_status st name).1.configs := by
  rw [status_dead st name pr c hc hp hd]
  refine ⟨rfl, ?_, ?_, ?_⟩
  · show lookupKey name (save_projects _).processes = none
    rw [save_processes]
    exact lookupKey_erase_self name _
  · show lookupKey name (save_projects _).configs = _
    rw [save_configs]
    exact lookupKey_insert_self name _ _
  · show (save_projects _).disk = (save_projects _).configs
    rw [save_configs, save_disk_of_writeOk]
    exact hw

/-- Claim C4 witness: the status query on the dead-entry example. -/
theorem c4_status_dead_reconciles_witness :
    (get_project_status exDead "a").2 = "🔴 Stopped" ∧
    lookupKey "a" (get_project_status exDead "a").1.processes = none ∧
    lookupKey "a" (get_project_status exDead "a").1.configs
      = some { cfgA with status := "stopped" } ∧
    (get_project_status exDead "a").1.disk = (get_project_status exDead "a").1.configs :=
  c4_status_dead_reconciles exDead "a" { pid := 5, alive := false } cfgA
    (by decide) (by decide) (by decide) (by decide)

/-- Claim C5 counterexample: the claim quantifies over every count k < N,
but for k = 0 the code returns the whole file (the Python slice l[-0:] is
the whole list), not the last zero lines and not the empty-logs result. -/
theorem c5_logs_tail_zero_counterexample :
    (0 : Nat) < (["x\n"] : List String).length ∧
    get_project_logs exLive "a" 0 = "x\n" ∧
    get_project_logs exLive "a" 0 ≠ pyJoin (lastLines ["x\n"] 0) ∧
    get_project_logs exLive "a" 0 ≠ "Logs are empty" := by decide

/-- Claim C5 amended: for a log file of N nonempty lines, requesting the
tail with count k where 1 ≤ k returns exactly the last k lines in their
original order (hence all N lines when k ≥ N, and the last k for k < N);
with k = 0 the code returns all lines instead.  A project with no log file
gets the no-logs result, which differs from the empty-log result, and an
empty log file gets the empty-log result. -/
theorem c5_logs_tail_correct (st : MState) (name : String) (k : Nat) :
    (∀ l, lookupKey name st.logs = some l → (∀ s ∈ l, s ≠ "") → l ≠ [] → 1 ≤ k →
      get_project_logs st name k = pyJoin (lastLines l k)) ∧
    (∀ l, lookupKey name st.logs = some l → k = 0 →
      get_project_logs st name k = pyJoin l ∨ get_project_logs st name k = "Logs are empty") ∧
    (lookupKey name st.logs = none → get_project_logs st name k = "No logs found") ∧
    (lookupKey name st.logs = some [] → get_project_logs st name k = "Logs are empty") ∧
    "No logs found" ≠ "Logs are empty" := by
  refine ⟨?_, ?_, ?_, ?_, by decide⟩
  · intro l hl hne h0 hk
    have hslice : pySliceLast l k = lastLines l k := by
      unfold pySliceLast lastLines
      rw [if_neg (by omega)]
    have hdropne : lastLines l k ≠ [] := by
      unfold lastLines
      intro hd
      have := congrArg List.length hd
      rw [List.length_drop] at this
      simp at this
      have hlen : 0 < l.length := List.length_pos.mpr h0
      omega
    have hjoin : pyJoin (lastLines l k) ≠ "" := by
      apply pyJoin_ne_empty
      · intro s hs
        exact hne s (List.drop_subset _ l hs)
      · exact hdropne
    simp only [get_project_logs, hl, hslice]
    rw [if_neg hjoin]
  · intro l hl hk
    subst hk
    by_cases hj : pyJoin l = ""
    · right
      simp [get_project_logs, hl, pySliceLast, hj]
    · left
      simp [get_project_logs, hl, pySliceLast, hj]
  · intro hl
    simp [get_project_logs, hl]
  · intro hl
    simp [get_project_logs, hl, pySliceLast, pyJoin]

/-- Claim C5 witness: a two-line log tailed with k = 1, the no-log and the
empty-log cases on concrete states. -/
theorem c5_logs_tail_correct_witness :
    get_project_logs
      { exEmpty with logs := [("a", ["l1\n", "l2\n"])] } "a" 1
      = pyJoin (lastLines ["l1\n", "l2\n"] 1) ∧
    get_project_logs exEmpty "a" 1 = "No logs found" ∧
    get_project_logs { exEmpty with logs := [("a", [])] } "a" 1 = "Logs are empty" :=
  ⟨(c5_logs_tail_correct { exEmpty with logs := [("a", ["l1\n", "l2\n"])] } "a" 1).1
      ["l1\n", "l2\n"] (by decide) (by decide) (by decide) (by decide),
    (c5_logs_tail_correct exEmpty "a" 1).2.2.1 (by decide),
    (c5_logs_tail_correct { exEmpty with logs := [("a", [])] } "a" 1).2.2.2.1 (by decide)⟩

/-- Claim C6 counterexample: project a is already in the store with an edited
run command, yet create_project reports success and resets the metadata to
the defaults — there is no AlreadyExists failure in create_project and the
existing metadata is not preserved. -/
theorem c6_create_overwrites_counterexample :
    (lookupKey "a" exCustom.configs).isSome = true ∧
    (create_project exCustom "a" "t1").2 = true ∧
    (lookupKey "a" exCustom.configs).map Config.run_command = some "node bot.js" ∧
    (lookupKey "a" (create_project exCustom "a" "t1").1.configs).map Config.run_command
      = some "python3 main.py" ∧
    (lookupKey "a" (create_project exCustom "a" "t1").1.configs).map Config.status
      = some "stopped" := by decide

/-- Claim C6 amended: the AlreadyExists check is made by the caller, not by
create_project: the new-project flow of handle_text_input refuses a valid
name that is already present in the Project Store with an already-exists
reply and leaves the whole state — in particular the existing metadata —
unchanged; create_project itself, called on an existing name, succeeds and
overwrites the metadata with defaults. -/
theorem c6_create_guarded_by_flow (st : MState) (name now : String) (c : Config)
    (hv : validName name = true) (hc : lookupKey name st.configs = some c) :
    handleNewProject st name now = (st, "Project " ++ name ++ " already exists!") := by
  simp [handleNewProject, hv, hc]

/-- Claim C6 witness: the new-project flow on the customised example state. -/
theorem c6_create_guarded_by_flow_witness :
    handleNewProject exCustom "a" "t1" = (exCustom, "Project " ++ "a" ++ " already exists!") :=
  c6_create_guarded_by_flow exCustom "a" "t1" cfgCustom (by decide) (by decide)

/-- Claim C7 counterexample: project a has prior log output; a successful
start leaves the log file empty — the file is opened with mode w, which
truncates, so output of earlier runs is not preserved. -/
theorem c7_start_truncates_counterexample :
    lookupKey "a" exStopped.logs = some ["old\n"] ∧
    (start_project exStopped "a" 7).2.1 = true ∧
    lookupKey "a" (start_project exStopped "a" 7).1.logs = some ([] : List String) ∧
    ("old\n" ∈ ([] : List String)) = False := by
  refine ⟨by decide, by decide, by decide, by simp⟩

/-- Claim C7 amended: a new start opens the project log file in write mode,
which truncates it: after a successful start the log file is empty and
output written by the new run is the only content, appended after the
truncation point; output of earlier runs is discarded. -/
theorem c7_start_truncates (st : MState) (name : String) (c : Config) (p : Nat)
    (line : String) (hc : lookupKey name st.configs = some c)
    (hl : pollAlive st name = false) :
    lookupKey name (start_project st name p).1.logs = some ([] : List String) ∧
    lookupKey name (childWrite (start_project st name p).1 name line).logs
      = some [line] := by
  rw [start_spawns st name c p hc hl]
  have h1 : lookupKey name (save_projects { st with
      processes := insertKV name { pid := p, alive := true } st.processes,
      osProcs := insertKV p true st.osProcs,
      logs := insertKV name ([] : List String) st.logs,
      configs := insertKV name { c with status := "running", pid := some p }
        st.configs }).logs = some ([] : List String) := by
    rw [save_logs]
    exact lookupKey_insert_self name _ _
  refine ⟨h1, ?_⟩
  show lookupKey name (childWrite _ name line).logs = some [line]
  unfold childWrite
  rw [h1]
  show lookupKey name (insertKV name ([] ++ [line]) _) = some [line]
  rw [lookupKey_insert_self]
  rfl

/-- Claim C7 witness: starting the stopped example project truncates its log,
and a line the child then writes is the whole log content. -/
theorem c7_start_truncates_witness :
    lookupKey "a" (start_project exStopped "a" 7).1.logs = some ([] : List String) ∧
    lookupKey "a" (childWrite (start_project exStopped "a" 7).1 "a" "new\n").logs
      = some ["new\n"] :=
  c7_start_truncates exStopped "a" { cfgA with status := "stopped", pid := none } 7 "new\n"
    (by decide) (by decide)

theorem deleteDirs_found (st : MState) (name : String) (c : Config)
    (hc : lookupKey name st.configs = some c) :
    deleteDirs st name =
      (save_projects { st with
          logs := eraseKey name st.logs,
          configs := eraseKey name st.configs },
        true, "Project " ++ name ++ " deleted successfully.") := by
  simp [deleteDirs, hc]

/-- Claim C8 counterexample: on a state whose disk writes fail, create still
reports success while the persisted copy does not match the in-memory
collection — the persistence failure is swallowed. -/
theorem c8_save_failure_swallowed_counterexample :
    exNoDisk.writeOk = false ∧
    (create_project exNoDisk "a" "t").2 = true ∧
    (create_project exNoDisk "a" "t").1.disk
      ≠ (create_project exNoDisk "a" "t").1.configs := by decide

/-- Claim C8 amended: every mutating operation (create, start, stop,
edit-run-command, delete) invokes the persistence write before returning,
and when that write succeeds the on-disk copy equals the in-memory
collection at return; but a failing durable write is swallowed — it is only
logged inside save_projects, and each operation returns exactly the same
success or failure to the caller as when the write succeeds. -/
theorem c8_mutators_persist_or_swallow (st : MState) (name now cmd : String) (p : Nat) :
    ((create_project { st with writeOk := false } name now).2
      = (create_project { st with writeOk := true } name now).2) ∧
    ((create_project { st with writeOk := true } name now).1.disk
      = (create_project { st with writeOk := true } name now).1.configs) ∧
    ((start_project { st with writeOk := false } name p).2.1
      = (start_project { st with writeOk := true } name p).2.1) ∧
    ((start_project { st with writeOk := true } name p).1.disk
      = (if (start_project { st with writeOk := true } name p).2.1
          then (start_project { st with writeOk := true } name p).1.configs
          else st.disk)) ∧
    ((stop_project { st with writeOk := false } name).2.1
      = (stop_project { st with writeOk := true } name).2.1) ∧
    ((stop_project { st with writeOk := true } name).1.disk
      = (if (stop_project { st with writeOk := true } name).2.1
          then (stop_project { st with writeOk := true } name).1.configs
          else st.disk)) ∧
    ((update_run_command { st with writeOk := false } name cmd).2
      = (update_run_command { st with writeOk := true } name cmd).2) ∧
    ((update_run_command { st with writeOk := true } name cmd).1.disk
      = (if (update_run_command { st with writeOk := true } name cmd).2
          then (update_run_command { st with writeOk := true } name cmd).1.configs
          else st.disk)) ∧
    ((delete_project { st with writeOk := false } name).2.1
      = (delete_project { st with writeOk := true } name).2.1) ∧
    ((delete_project { st with writeOk := true } name).2.1 = true →
      (delete_project { st with writeOk := true } name).1.disk
        = (delete_project { st with writeOk := true } name).1.configs) := by
  refine ⟨rfl, by simp [create_project, save_projects], ?_, ?_, ?_, ?_, ?_, ?_, ?_, ?_⟩
  · cases hc : lookupKey name st.configs with
    | none => simp [start_project, hc]
    | some c =>
      cases hp : lookupKey name st.processes with
      | none =>
        have hl : pollAlive st name = false := by simp [pollAlive, hp]
        rw [start_spawns { st with writeOk := false } name c p hc hl,
          start_spawns { st with writeOk := true } name c p hc hl]
      | some pr =>
        cases ha : pr.alive with
        | true => simp [start_project, pollAlive, hc, hp, ha]
        | false =>
          have hl : pollAlive st name = false := by simp [pollAlive, hp, ha]
          rw [start_spawns { st with writeOk := false } name c p hc hl,
            start_spawns { st with writeOk := true } name c p hc hl]
  · cases hc : lookupKey name st.configs with
    | none => simp [start_project, hc]
    | some c =>
      cases hp : lookupKey name st.processes with
      | none =>
        have hl : pollAlive st name = false := by simp [pollAlive, hp]
        rw [start_spawns { st with writeOk := true } name c p hc hl]
        simp [save_projects]
      | some pr =>
        cases ha : pr.alive with
        | true => simp [start_project, pollAlive, hc, hp, ha]
        | false =>
          have hl : pollAlive st name = false := by simp [pollAlive, hp, ha]
          rw [start_spawns { st with writeOk := true } name c p hc hl]
          simp [save_projects]
  · cases hp : lookupKey name st.processes with
    | none =>
      rw [stop_none { st with writeOk := false } name hp,
        stop_none { st with writeOk := true } name hp]
    | some pr =>
      cases hc : lookupKey name st.configs with
      | none =>
        rw [stop_keyError { st with writeOk := false } name pr hp hc,
          stop_keyError { st with writeOk := true } name pr hp hc]
      | some c =>
        rw [stop_found { st with writeOk := false } name pr c hp hc,
          stop_found { st with writeOk := true } name pr c hp hc]
  · cases hp : lookupKey name st.processes with
    | none =>
      rw [stop_none { st with writeOk := true } name hp]
      simp
    | some pr =>
      cases hc : lookupKey name st.configs with
      | none =>
        rw [stop_keyError { st with writeOk := true } name pr hp hc]
        simp
      | some c =>
        rw [stop_found { st with writeOk := true } name pr c hp hc]
        simp [save_projects]
  · cases hc : lookupKey name st.configs with
    | none => simp [update_run_command, hc]
    | some c => simp [update_run_command, hc]
  · cases hc : lookupKey name st.configs with
    | none => simp [update_run_command, hc]
    | some c => simp [update_run_command, hc, save_projects]
  · cases hc : lookupKey name st.configs with
    | none => simp [delete_project, hc]
    | some c =>
      cases hp : lookupKey name st.processes with
      | none =>
        simp only [delete_project, hc, hp]
        rw [deleteDirs_found { st with writeOk := false } name c hc,
          deleteDirs_found { st with writeOk := true } name c hc]
      | some pr =>
        simp only [delete_project, hc, hp]
        rw [stop_found { st with writeOk := false } name pr c hp hc,
          stop_found { st with writeOk := true } name pr c hp hc]
        simp only [if_true]
        rw [deleteDirs_found _ name { c with status := "stopped", pid := none }
            (by rw [save_configs]; exact lookupKey_insert_self name _ _),
          deleteDirs_found _ name { c with status := "stopped", pid := none }
            (by rw [save_configs]; exact lookupKey_insert_self name _ _)]
  · intro hdel
    cases hc : lookupKey name st.configs with
    | none =>
      exfalso
      simp [delete_project, hc] at hdel
    | some c =>
      cases hp : lookupKey name st.processes with
      | none =>
        simp only [delete_project, hc, hp]
        rw [deleteDirs_found { st with writeOk := true } name c hc]
        simp [save_projects]
      | some pr =>
        simp only [delete_project, hc, hp]
        rw [stop_found { st with writeOk := true } name pr c hp hc]
        simp only [if_true]
        rw [deleteDirs_found _ name { c with status := "stopped", pid := none }
            (by rw [save_configs]; exact lookupKey_insert_self name _ _)]
        simp [save_projects, save_writeOk]

/-- Claim C8 witness: the mutator persistence facts at a concrete state, with
the delete implication discharged. -/
theorem c8_mutators_persist_or_swallow_witness :
    ((create_project { exCustom with writeOk := false } "b" "t").2
      = (create_project { exCustom with writeOk := true } "b" "t").2) ∧
    ((delete_project { exCustom with writeOk := true } "a").2.1 = true →
      (delete_project { exCustom with writeOk := true } "a").1.disk
        = (delete_project { exCustom with writeOk := true } "a").1.configs) :=
  ⟨(c8_mutators_persist_or_swallow exCustom "b" "t" "cmd" 9).1,
    (c8_mutators_persist_or_swallow exCustom "a" "t" "cmd" 9).2.2.2.2.2.2.2.2.2⟩

/-- Claim C9 counterexample: on a state whose Process Table has an entry for
a but whose Project Store does not, stop fails for a reason other than
not-running (the KeyError branch), yet restart does attempt start and
returns the start result (the not-found error), not the stop failure —
because the failed stop had already deleted the Process Table entry, making
the guard in restart_project pass. -/
theorem c9_restart_attempts_start_counterexample :
    (stop_project exOrphan "a").2.1 = false ∧
    (stop_project exOrphan "a").2.2 ≠ "Project is not running" ∧
    (restart_project exOrphan "a" 9).2.2 = "Project not found" ∧
    (restart_project exOrphan "a" 9).2.2 ≠ (stop_project exOrphan "a").2.2 := by decide

/-- Claim C9 amended: restart first calls stop, then pauses for the fixed
2-time-unit interval, then calls start on the post-stop state and returns
the start result — unconditionally, since every stop outcome (success,
not-running, or the metadata-missing failure) leaves no Process Table entry
behind, so the guard branch that would surface a stop failure without
starting is never taken. -/
theorem c9_restart_is_stop_then_start (st : MState) (name : String) (p : Nat) :
    restart_project st name p = start_project (stop_project st name).1 name p ∧
    restartPause = 2 :=
  ⟨restart_eq_stop_start st name p, rfl⟩

end Hoster
